import Mathlib

/-! Shallow embedding of `lib/ansible/runner/connection_plugins/paramiko_switch.py`:
the paramiko SSH transport plugin (connection cache, host-key trust policy,
and crash-safe trust-file persistence), together with theorems about the
claims of the specification.

Conventions of the embedding:
* Python exceptions become an explicit error type `PyExc`; a function that can
  raise returns `Except PyExc _` together with the state it leaves behind.
* The paramiko host-key store `client._host_keys` is modelled as an ordered
  list of `KeyEntry`; the runtime-attached marker `_added_by_ansible_this_time`
  becomes the boolean field `addedThisTime` (absent attribute = `false`).
* File-system and lock effects are modelled as explicit state records; the
  environment records which OS calls fail, so that every exception path of the
  Python code corresponds to a branch of the Lean definition.
-/

namespace ParamikoSwitch

/-- Exceptions the plugin can raise or see.  `ansibleError` is
`ansible.errors.AnsibleError`, `ansibleConnectionFailed` is
`ansible.errors.AnsibleConnectionFailed`; `promptFailed` stands for an
exception out of `raw_input` (e.g. `EOFError` on a closed stdin); `osError`
stands for an OS-level failure of a file-system call. -/
inductive PyExc where
  | ansibleError (msg : String)
  | ansibleConnectionFailed (msg : String)
  | promptFailed
  | osError
deriving DecidableEq, Repr

/-- One entry of the in-memory host-key store `client._host_keys`:
hostname, key type, base64 public key, and the
`_added_by_ansible_this_time` marker (false when the attribute is absent,
per the `getattr(key, '_added_by_ansible_this_time', False)` reads). -/
structure KeyEntry where
  hostname : String
  keytype : String
  base64Key : String
  addedThisTime : Bool
deriving DecidableEq, Repr

/-- The line written for one entry: `"%s %s %s\n" % (hostname, keytype, key.get_base64())`. -/
def keyLine (e : KeyEntry) : String :=
  e.hostname ++ " " ++ e.keytype ++ " " ++ e.base64Key ++ "\n"

/-- `Connection._any_keys_added`: scans the store for any key carrying the
`_added_by_ansible_this_time` marker. -/
def anyKeysAdded (store : List KeyEntry) : Bool :=
  store.any (fun e => e.addedThisTime)

/-- `Connection._save_ssh_host_keys`: returns `none` when no key was added this
session (the Python function returns `False` before opening the file);
otherwise the list of lines written, in order: first every entry without the
session marker, then every entry with it, each pass in store order. -/
def saveSshHostKeys (store : List KeyEntry) : Option (List String) :=
  if anyKeysAdded store then
    some ((store.filter (fun e => !e.addedThisTime)).map keyLine ++
          (store.filter (fun e => e.addedThisTime)).map keyLine)
  else
    none

/-- The lines `_save_ssh_host_keys` leaves in the file it was given: the saved
lines when it writes, the empty (freshly created) file content when it
returned early. -/
def savedLines (store : List KeyEntry) : List String :=
  match saveSshHostKeys store with
  | some lines => lines
  | none => []

theorem anyKeysAdded_append (l₁ l₂ : List KeyEntry) :
    anyKeysAdded (l₁ ++ l₂) = (anyKeysAdded l₁ || anyKeysAdded l₂) := by
  simp [anyKeysAdded, List.any_append]

/-- Claim C2: For every trust store loaded with N pre-existing entries and every
session that accepts M ≥ 1 new keys, the rewrite produced by the persistence
flush has exactly N+M lines: the first N are the pre-existing entries
(`addedThisTime = false`) in their loaded order, and the last M are the
session-accepted entries in the order they were accepted. -/
theorem save_ssh_host_keys_ordering (loaded accepted : List KeyEntry)
    (hload : ∀ e ∈ loaded, e.addedThisTime = false)
    (hacc : ∀ e ∈ accepted, e.addedThisTime = true)
    (hM : accepted ≠ []) :
    saveSshHostKeys (loaded ++ accepted) =
      some (loaded.map keyLine ++ accepted.map keyLine) ∧
    (loaded.map keyLine ++ accepted.map keyLine).length =
      loaded.length + accepted.length := by
  have hany : anyKeysAdded (loaded ++ accepted) = true := by
    obtain ⟨e, he⟩ := List.exists_mem_of_ne_nil accepted hM
    simp only [anyKeysAdded, List.any_eq_true]
    exact ⟨e, List.mem_append_right _ he, hacc e he⟩
  have hfl : loaded.filter (fun e => !e.addedThisTime) = loaded := by
    apply List.filter_eq_self.mpr
    intro e he
    simp [hload e he]
  have hfl2 : accepted.filter (fun e => !e.addedThisTime) = [] := by
    apply List.filter_eq_nil_iff.mpr
    intro e he
    simp [hacc e he]
  have hfa : loaded.filter (fun e => e.addedThisTime) = [] := by
    apply List.filter_eq_nil_iff.mpr
    intro e he
    simp [hload e he]
  have hfa2 : accepted.filter (fun e => e.addedThisTime) = accepted := by
    apply List.filter_eq_self.mpr
    intro e he
    exact hacc e he
  constructor
  · simp [saveSshHostKeys, hany, List.filter_append, hfl, hfl2, hfa, hfa2]
  · simp

/-- Witness for C2 at a concrete store: two pre-existing entries, one
session-accepted entry. -/
theorem save_ssh_host_keys_ordering_witness :
    saveSshHostKeys
        ([⟨"alpha", "ssh-rsa", "AAAA", false⟩, ⟨"beta", "ssh-dss", "BBBB", false⟩] ++
         [⟨"gamma", "ssh-rsa", "CCCC", true⟩]) =
      some (["alpha ssh-rsa AAAA\n", "beta ssh-dss BBBB\n"] ++ ["gamma ssh-rsa CCCC\n"]) ∧
    (["alpha ssh-rsa AAAA\n", "beta ssh-dss BBBB\n"] ++ ["gamma ssh-rsa CCCC\n"]).length = 2 + 1 := by
  have h := save_ssh_host_keys_ordering
      [⟨"alpha", "ssh-rsa", "AAAA", false⟩, ⟨"beta", "ssh-dss", "BBBB", false⟩]
      [⟨"gamma", "ssh-rsa", "CCCC", true⟩]
      (by decide) (by decide) (by decide)
  constructor
  · have := h.1
    simpa [keyLine] using this
  · decide

/-! Trust policy: `MyAddPolicy.missing_host_key` and the installed policy.

The plugin defines the interactive policy `MyAddPolicy`, but the line that
would install it is commented out and `paramiko.AutoAddPolicy()` is installed
instead (`_connect_uncached`, line 155).

Lock modelling: `fcntl.lockf` takes POSIX record locks (`fcntl(F_SETLKW)`),
`fcntl.flock` takes BSD `flock` locks; on Linux the two mechanisms are
independent, so `fcntl.flock(fd, LOCK_UN)` does not release a lock acquired
with `fcntl.lockf(fd, LOCK_EX)`.  A `LockState` therefore tracks the two
kinds of exclusive lock on one lock file separately. -/

/-- State of the two independent kinds of exclusive lock on one lock file. -/
structure LockState where
  lockfHeld : Bool
  flockHeld : Bool
deriving DecidableEq, Repr

/-- `fcntl.lockf(fd, fcntl.LOCK_EX)`. -/
def lockfEx (s : LockState) : LockState := { s with lockfHeld := true }

/-- `fcntl.lockf(fd, fcntl.LOCK_UN)`. -/
def lockfUn (s : LockState) : LockState := { s with lockfHeld := false }

/-- `fcntl.flock(fd, fcntl.LOCK_UN)`: releases only the flock-style lock. -/
def flockUn (s : LockState) : LockState := { s with flockHeld := false }

/-- The state `missing_host_key` reads and writes: the two process-level lock
files, the host-key store of the client, and whether `sys.stdin` is currently
swapped to the runner's stdin. -/
structure PolicyState where
  processLock : LockState
  outputLock : LockState
  store : List KeyEntry
  stdinSwapped : Bool
deriving DecidableEq, Repr

/-- `MyAddPolicy.missing_host_key(client, hostname, key)`.
`hostKeyChecking` is `C.HOST_KEY_CHECKING`; `promptResult` is the outcome of
`raw_input` (`Except.error ()` when it raises, e.g. `EOFError`); the key is
given by its hostname, type and base64 form.  Returns the exception raised
(if any) together with the final state.  Faithful points: the rejection path
releases the locks with `fcntl.flock(..., LOCK_UN)` (lines 91-92) although
they were taken with `fcntl.lockf(..., LOCK_EX)` (lines 77-78); an exception
from `raw_input` propagates before any release or stdin restore; the key is
marked `_added_by_ansible_this_time = True` and added to `client._host_keys`
only after the check block. -/
def missingHostKey (hostKeyChecking : Bool) (promptResult : Except Unit String)
    (hostname keytype b64 : String) (s : PolicyState) :
    Except PyExc Unit × PolicyState :=
  if hostKeyChecking then
    let s1 : PolicyState :=
      { s with processLock := lockfEx s.processLock,
               outputLock := lockfEx s.outputLock,
               stdinSwapped := true }
    match promptResult with
    | Except.error _ => (Except.error PyExc.promptFailed, s1)
    | Except.ok inp =>
      let s2 := { s1 with stdinSwapped := false }
      if inp ∈ (["yes", "y", ""] : List String) then
        let s3 := { s2 with outputLock := lockfUn s2.outputLock,
                            processLock := lockfUn s2.processLock }
        (Except.ok (),
         { s3 with store := s3.store ++ [⟨hostname, keytype, b64, true⟩] })
      else
        let s3 := { s2 with outputLock := flockUn s2.outputLock,
                            processLock := flockUn s2.processLock }
        (Except.error (PyExc.ansibleError "host connection rejected by user"), s3)
  else
    (Except.ok (), { s with store := s.store ++ [⟨hostname, keytype, b64, true⟩] })

/-- The two candidate missing-host-key policies appearing in
`_connect_uncached`: paramiko's stock `AutoAddPolicy` and the plugin's
`MyAddPolicy`. -/
inductive HostKeyPolicy where
  | autoAdd
  | myAdd
deriving DecidableEq, Repr

/-- The policy actually installed by `_connect_uncached`: line 154 — the
`MyAddPolicy` installation — is commented out, and line 155 runs
`ssh.set_missing_host_key_policy(paramiko.AutoAddPolicy())`. -/
def installedMissingHostKeyPolicy : HostKeyPolicy := HostKeyPolicy.autoAdd

/-- Whether a policy ever consults the interactive confirmation prompt for an
unknown key, given `C.HOST_KEY_CHECKING`: `MyAddPolicy.missing_host_key`
prompts exactly when checking is enabled; paramiko's `AutoAddPolicy` never
prompts. -/
def policyConsultsTrustPrompt (p : HostKeyPolicy) (hostKeyChecking : Bool) : Bool :=
  match p with
  | HostKeyPolicy.myAdd => hostKeyChecking
  | HostKeyPolicy.autoAdd => false

/-- `paramiko.AutoAddPolicy.missing_host_key`: unconditionally adds the key to
`client._host_keys` and returns; it never raises, never prompts, and does not
set the `_added_by_ansible_this_time` attribute, so the entry it adds carries
`addedThisTime = false`. -/
def autoAddMissingHostKey (hostname keytype b64 : String) (s : PolicyState) :
    Except PyExc Unit × PolicyState :=
  (Except.ok (), { s with store := s.store ++ [⟨hostname, keytype, b64, false⟩] })

/-! Connection cache: `_cache_key` and `connect` -/

/-- `Connection._cache_key`: `"%s__%s__" % (self.host, self.user)`. -/
def cacheKey (host user : String) : String :=
  host ++ "__" ++ user ++ "__"

/-- State of the process-wide cache `SSH_CONNECTION_CACHE` and of the
handshake factory `_connect_uncached`: the cache maps cache-key strings to
session handles (modelled as natural numbers), `factoryCalls` counts the
invocations of `_connect_uncached`, and `nextHandle` supplies the handle a
fresh handshake would produce. -/
structure ConnState where
  cache : List (String × Nat)
  factoryCalls : Nat
  nextHandle : Nat
deriving DecidableEq, Repr

/-- `Connection.connect`: look the cache key up in `SSH_CONNECTION_CACHE`; on
a hit reuse the cached session, on a miss call `_connect_uncached` once and
insert the result.  Returns the session handle `self.ssh` ends up with,
and the new state. -/
def connect (host user : String) (s : ConnState) : Nat × ConnState :=
  match s.cache.lookup (cacheKey host user) with
  | some h => (h, s)
  | none =>
      (s.nextHandle,
       { cache := (cacheKey host user, s.nextHandle) :: s.cache,
         factoryCalls := s.factoryCalls + 1,
         nextHandle := s.nextHandle + 1 })

/-! Handshake failure classification (`_connect_uncached`, lines 178-188) -/

/-- Does `hay` start with `needle`? -/
def listStartsWith : List Char → List Char → Bool
  | [], _ => true
  | _ :: _, [] => false
  | a :: as, b :: bs => (a == b) && listStartsWith as bs

/-- Does `needle` occur as a contiguous run inside `hay`? -/
def listHasInfix (needle : List Char) : List Char → Bool
  | [] => listStartsWith needle []
  | c :: rest => listStartsWith needle (c :: rest) || listHasInfix needle rest

/-- Substring test: `needle in hay` of Python. -/
def strContains (hay needle : String) : Bool :=
  listHasInfix needle.data hay.data

/-- The literal hint appended for an encrypted private key. -/
def userHintText : String :=
  "To connect as a different user, use -u <username>."

/-- The message built for the encrypted-private-key case:
`'ssh %s@%s:%s : %s\nTo connect as a different user, use -u <username>.'
 % (self.user, self.host, self.port, msg)`. -/
def encryptedKeyMsg (user host : String) (port : Nat) (msg : String) : String :=
  ("ssh " ++ user ++ "@" ++ host ++ ":" ++ toString port ++ " : " ++ msg ++ "\n")
    ++ userHintText

/-- The `except` block of `_connect_uncached`: classify the handshake
exception by its message.  `"PID check failed"` yields the
paramiko-upgrade hint as an `AnsibleError`; otherwise
`"Private key file is encrypted"` yields an `AnsibleConnectionFailed`
carrying the different-user hint; every other message yields a generic
`AnsibleConnectionFailed` with the underlying message. -/
def classifyConnectError (user host : String) (port : Nat) (msg : String) : PyExc :=
  if strContains msg "PID check failed" then
    PyExc.ansibleError
      "paramiko version issue, please upgrade paramiko on the machine running ansible"
  else if strContains msg "Private key file is encrypted" then
    PyExc.ansibleConnectionFailed (encryptedKeyMsg user host port msg)
  else
    PyExc.ansibleConnectionFailed msg

/-- The handshake part of `_connect_uncached`: a single `ssh.connect`
attempt whose outcome is `attempt` (`Except.error msg` when the underlying
call raises with message `msg`).  The failure is classified once and raised;
there is no retry. -/
def connectUncached (user host : String) (port : Nat)
    (attempt : Except String Unit) : Except PyExc Unit :=
  match attempt with
  | Except.ok _ => Except.ok ()
  | Except.error msg => Except.error (classifyConnectError user host port msg)

/-! The `Connection.close` method (lines 259-310), coarse effect view

`close` pops the cache entries, and when
`C.HOST_KEY_CHECKING and C.PARAMIKO_RECORD_HOST_KEYS and self._any_keys_added()`
runs the flush.  The lock-file directory creation (`os.makedirs`, line 272)
and the lock-file open (`open(lockfile, 'w')`, line 274) happen BEFORE the
`try:` of line 277; only the reload/stat/tempfile/write/rename sequence is
inside the `try`, whose bare `except` swallows everything.  `ssh.close()`
runs after the whole block. -/

/-- Configuration and fault injection for one `close()` call. -/
structure CloseEnv where
  hostKeyChecking : Bool
  recordHostKeys : Bool
  dirMissing : Bool
  makedirsFails : Bool
  lockOpenFails : Bool
  flushFails : Bool
deriving DecidableEq, Repr

/-- Observable outcome of one `close()` call. -/
structure CloseResult where
  raised : Option PyExc
  transportClosed : Bool
  cacheEvicted : Bool
  flushCompleted : Bool
deriving DecidableEq, Repr

/-- `Connection.close`, following the source line by line: pop the caches;
if the guard holds, (possibly) `makedirs` the key-file directory and open
the lock file — both outside any `try`, so their failure propagates and
`ssh.close()` is never reached — then `lockf LOCK_EX`, `try: flush
except: pass`, `lockf LOCK_UN`, and finally `ssh.close()`. -/
def close (env : CloseEnv) (store : List KeyEntry) : CloseResult :=
  if env.hostKeyChecking && env.recordHostKeys && anyKeysAdded store then
    if env.dirMissing && env.makedirsFails then
      { raised := some PyExc.osError, transportClosed := false,
        cacheEvicted := true, flushCompleted := false }
    else if env.lockOpenFails then
      { raised := some PyExc.osError, transportClosed := false,
        cacheEvicted := true, flushCompleted := false }
    else
      { raised := none, transportClosed := true,
        cacheEvicted := true, flushCompleted := !env.flushFails }
  else
    { raised := none, transportClosed := true,
      cacheEvicted := true, flushCompleted := false }

/-! The flush write phase (lines 286-300), fine-grained file-system view -/

/-- POSIX metadata of a file: permission bits (`st_mode & 07777`), owner and
group. -/
structure FileMeta where
  mode : Nat
  uid : Nat
  gid : Nat
deriving DecidableEq, Repr

/-- The file-system state the flush touches: the content (as lines) and
metadata of the file at the canonical trust-file path (`self.keyfile`), and
the content and metadata of the temporary file when it exists. -/
structure FsState where
  trustContent : List String
  trustMeta : FileMeta
  tempContent : Option (List String)
  tempMeta : Option FileMeta
deriving DecidableEq, Repr

/-- Metadata a fresh `tempfile.NamedTemporaryFile` carries: mode `0600`,
owned by the calling process. -/
def tempInitMeta (procUid procGid : Nat) : FileMeta :=
  { mode := 0o600, uid := procUid, gid := procGid }

/-- Step `i` of the flush write phase, in source order:
0 — `tempfile.NamedTemporaryFile(dir=key_dir, delete=False)`;
1 — `os.chmod(tmp_keyfile.name, key_stat.st_mode & 07777)`;
2 — `os.chown(tmp_keyfile.name, key_stat.st_uid, key_stat.st_gid)`;
3 — `self._save_ssh_host_keys(tmp_keyfile.name)` (writes the temp file);
4 — `os.rename(tmp_keyfile.name, self.keyfile)`.
The stat snapshot (line 287) is a pure read; steps 0-3 never touch the file
at the canonical path. -/
def flushStep (store : List KeyEntry) (procUid procGid : Nat) (i : Nat)
    (fs : FsState) : FsState :=
  match i with
  | 0 => { fs with tempContent := some [],
                   tempMeta := some (tempInitMeta procUid procGid) }
  | 1 => { fs with tempMeta :=
             fs.tempMeta.map (fun m => { m with mode := fs.trustMeta.mode }) }
  | 2 => { fs with tempMeta :=
             fs.tempMeta.map (fun m =>
               { m with uid := fs.trustMeta.uid, gid := fs.trustMeta.gid }) }
  | 3 => { fs with tempContent := fs.tempContent.map (fun _ => savedLines store) }
  | 4 =>
      match fs.tempContent, fs.tempMeta with
      | some c, some m =>
          { trustContent := c, trustMeta := m,
            tempContent := none, tempMeta := none }
      | _, _ => fs
  | _ => fs

/-- Run the first `k` steps of the flush write phase (`k = 5` runs it to
completion; any `k ≤ 4` is an interruption before the rename). -/
def flushUpTo (store : List KeyEntry) (procUid procGid : Nat) :
    Nat → FsState → FsState
  | 0, fs => fs
  | Nat.succ k, fs =>
      flushStep store procUid procGid k (flushUpTo store procUid procGid k fs)

/-! Helper lemmas about the substring scan. -/

theorem listStartsWith_append (n t : List Char) :
    listStartsWith n (n ++ t) = true := by
  induction n with
  | nil => rfl
  | cons a as ih => simp [listStartsWith, ih]

theorem listHasInfix_self_append (n t : List Char) :
    listHasInfix n (n ++ t) = true := by
  cases n with
  | nil =>
      cases t with
      | nil => rfl
      | cons c rest => simp [listHasInfix, listStartsWith]
  | cons a as =>
      simp only [listHasInfix, Bool.or_eq_true]
      exact Or.inl (listStartsWith_append (a :: as) t)

theorem listHasInfix_append (pre n t : List Char) :
    listHasInfix n (pre ++ (n ++ t)) = true := by
  induction pre with
  | nil => simpa using listHasInfix_self_append n t
  | cons p ps ih => simp [listHasInfix, ih]

theorem strContains_of_split (hay needle : String) (pre suf : List Char)
    (h : hay.data = pre ++ (needle.data ++ suf)) :
    strContains hay needle = true := by
  unfold strContains
  rw [h]
  exact listHasInfix_append pre needle.data suf

/-- The encrypted-key message carries both the different-user hint and the
underlying message. -/
theorem encryptedKeyMsg_parts (user host : String) (port : Nat) (msg : String) :
    strContains (encryptedKeyMsg user host port msg) userHintText = true ∧
    strContains (encryptedKeyMsg user host port msg) msg = true := by
  constructor
  · apply strContains_of_split _ _
      ("ssh " ++ user ++ "@" ++ host ++ ":" ++ toString port ++ " : " ++ msg ++ "\n").data
      []
    simp [encryptedKeyMsg, String.data_append]
  · apply strContains_of_split _ _
      ("ssh " ++ user ++ "@" ++ host ++ ":" ++ toString port ++ " : ").data
      ("\n".data ++ userHintText.data)
    simp [encryptedKeyMsg, String.data_append]

/-- Claim C6: a handshake failure whose message contains `"PID check failed"`
raises the paramiko-upgrade hint; otherwise one containing
`"Private key file is encrypted"` raises the encrypted-key
`AnsibleConnectionFailed` carrying the hint to pass an explicit user and the
underlying message; all other failures raise the generic
`AnsibleConnectionFailed` carrying the underlying message; a failed attempt
is classified once and never retried. -/
theorem classify_connect_error_spec (user host : String) (port : Nat) (msg : String) :
    (strContains msg "PID check failed" = true →
      classifyConnectError user host port msg =
        PyExc.ansibleError
          "paramiko version issue, please upgrade paramiko on the machine running ansible") ∧
    (strContains msg "PID check failed" = false →
      strContains msg "Private key file is encrypted" = true →
      classifyConnectError user host port msg =
        PyExc.ansibleConnectionFailed (encryptedKeyMsg user host port msg) ∧
      strContains (encryptedKeyMsg user host port msg) userHintText = true ∧
      strContains (encryptedKeyMsg user host port msg) msg = true) ∧
    (strContains msg "PID check failed" = false →
      strContains msg "Private key file is encrypted" = false →
      classifyConnectError user host port msg = PyExc.ansibleConnectionFailed msg) ∧
    connectUncached user host port (Except.error msg) =
      Except.error (classifyConnectError user host port msg) := by
  refine ⟨?_, ?_, ?_, rfl⟩
  · intro h
    simp [classifyConnectError, h]
  · intro h1 h2
    refine ⟨by simp [classifyConnectError, h1, h2], ?_, ?_⟩
    · exact (encryptedKeyMsg_parts user host port msg).1
    · exact (encryptedKeyMsg_parts user host port msg).2
  · intro h1 h2
    simp [classifyConnectError, h1, h2]

/-- Witness for C6: the three classification cases at concrete messages. -/
theorem classify_connect_error_spec_witness :
    classifyConnectError "u" "h" 22 "PID check failed" =
      PyExc.ansibleError
        "paramiko version issue, please upgrade paramiko on the machine running ansible" ∧
    classifyConnectError "u" "h" 22 "Private key file is encrypted" =
      PyExc.ansibleConnectionFailed
        (encryptedKeyMsg "u" "h" 22 "Private key file is encrypted") ∧
    classifyConnectError "u" "h" 22 "Connection refused" =
      PyExc.ansibleConnectionFailed "Connection refused" :=
  ⟨(classify_connect_error_spec "u" "h" 22 "PID check failed").1 (by decide),
   ((classify_connect_error_spec "u" "h" 22 "Private key file is encrypted").2.1
      (by decide) (by decide)).1,
   (classify_connect_error_spec "u" "h" 22 "Connection refused").2.2.1
      (by decide) (by decide)⟩

/-- Claim C7: for a fixed (host, user) identity, two sequential `connect()`
calls return the same cached session handle, with the handshake factory
`_connect_uncached` invoked exactly once — the second call performs no
handshake and leaves the state untouched. -/
theorem connect_cache_idempotent (host user : String) (s : ConnState)
    (h : s.cache.lookup (cacheKey host user) = none) :
    (connect host user ((connect host user s).2)).1 = (connect host user s).1 ∧
    (connect host user ((connect host user s).2)).2 = (connect host user s).2 ∧
    (connect host user s).2.factoryCalls = s.factoryCalls + 1 := by
  simp [connect, h, List.lookup]

/-- Witness for C7 starting from the empty cache. -/
theorem connect_cache_idempotent_witness :
    (([] : List (String × Nat)).lookup (cacheKey "example.com" "root") = none) ∧
    (connect "example.com" "root"
        ((connect "example.com" "root" ⟨[], 0, 0⟩).2)).1 =
      (connect "example.com" "root" ⟨[], 0, 0⟩).1 ∧
    (connect "example.com" "root" ⟨[], 0, 0⟩).2.factoryCalls = 0 + 1 :=
  ⟨rfl,
   (connect_cache_idempotent "example.com" "root" ⟨[], 0, 0⟩ rfl).1,
   (connect_cache_idempotent "example.com" "root" ⟨[], 0, 0⟩ rfl).2.2⟩

/-- Claim C10: the cache-key function is not injective — host `"a__b"` with
user `"c"` and host `"a"` with user `"b__c"` are distinct identities with the
same cache key, so a session cached for the first is returned for a
`connect()` on the second without a new handshake. -/
theorem cache_key_collision :
    cacheKey "a__b" "c" = cacheKey "a" "b__c" ∧
    ("a__b", "c") ≠ (("a", "b__c") : String × String) ∧
    (connect "a" "b__c" ((connect "a__b" "c" ⟨[], 0, 0⟩).2)).1 =
      (connect "a__b" "c" ⟨[], 0, 0⟩).1 ∧
    (connect "a" "b__c" ((connect "a__b" "c" ⟨[], 0, 0⟩).2)).2.factoryCalls = 1 := by
  refine ⟨by decide, by decide, by decide, by decide⟩

/-- Claim C1 (failing): `_connect_uncached` line 155 installs paramiko's
unconditional `AutoAddPolicy` as the missing-host-key handler — the
`MyAddPolicy` installation on line 154 is commented out — so with host-key
checking enabled the interactive trust policy is never consulted: an unknown
key is accepted with no prompt, and the entry it adds does not even carry the
session marker. -/
theorem installed_policy_is_auto_accept :
    installedMissingHostKeyPolicy = HostKeyPolicy.autoAdd ∧
    installedMissingHostKeyPolicy ≠ HostKeyPolicy.myAdd ∧
    policyConsultsTrustPrompt installedMissingHostKeyPolicy true = false ∧
    (∀ hostname keytype b64 : String, ∀ s : PolicyState,
      (autoAddMissingHostKey hostname keytype b64 s).1 = Except.ok () ∧
      (autoAddMissingHostKey hostname keytype b64 s).2.store =
        s.store ++ [⟨hostname, keytype, b64, false⟩]) := by
  refine ⟨rfl, by decide, rfl, ?_⟩
  intro hostname keytype b64 s
  exact ⟨rfl, rfl⟩

/-- Claim C4: with host-key checking enabled, an interactive response of
`""`, `"yes"` or `"y"` accepts the key (the entry is added with the session
marker); any other response raises
`AnsibleError "host connection rejected by user"` — never an
`AnsibleConnectionFailed` — and leaves the store, hence the trust file,
unmodified. -/
theorem missing_host_key_prompt_decision (inp hostname keytype b64 : String)
    (s : PolicyState) :
    (inp ∈ (["yes", "y", ""] : List String) →
      (missingHostKey true (Except.ok inp) hostname keytype b64 s).1 = Except.ok () ∧
      (missingHostKey true (Except.ok inp) hostname keytype b64 s).2.store =
        s.store ++ [⟨hostname, keytype, b64, true⟩]) ∧
    (inp ∉ (["yes", "y", ""] : List String) →
      (missingHostKey true (Except.ok inp) hostname keytype b64 s).1 =
        Except.error (PyExc.ansibleError "host connection rejected by user") ∧
      (missingHostKey true (Except.ok inp) hostname keytype b64 s).2.store = s.store ∧
      (∀ m, (missingHostKey true (Except.ok inp) hostname keytype b64 s).1 ≠
        Except.error (PyExc.ansibleConnectionFailed m))) := by
  constructor
  · intro h
    refine ⟨?_, ?_⟩ <;> simp [missingHostKey, h]
  · intro h
    refine ⟨?_, ?_, ?_⟩
    · simp [missingHostKey, h]
    · simp [missingHostKey, h]
    · intro m
      simp [missingHostKey, h]

/-- Witness for C4: an empty answer accepts, `"no"` rejects with the
trust-rejection error and an unchanged store. -/
theorem missing_host_key_prompt_decision_witness :
    ("" ∈ (["yes", "y", ""] : List String) ∧
      (missingHostKey true (Except.ok "") "h" "ssh-rsa" "AAAA"
        ⟨⟨false, false⟩, ⟨false, false⟩, [], false⟩).1 = Except.ok ()) ∧
    ("no" ∉ (["yes", "y", ""] : List String) ∧
      (missingHostKey true (Except.ok "no") "h" "ssh-rsa" "AAAA"
        ⟨⟨false, false⟩, ⟨false, false⟩, [], false⟩).1 =
        Except.error (PyExc.ansibleError "host connection rejected by user") ∧
      (missingHostKey true (Except.ok "no") "h" "ssh-rsa" "AAAA"
        ⟨⟨false, false⟩, ⟨false, false⟩, [], false⟩).2.store = []) :=
  ⟨⟨by decide,
    ((missing_host_key_prompt_decision "" "h" "ssh-rsa" "AAAA"
        ⟨⟨false, false⟩, ⟨false, false⟩, [], false⟩).1 (by decide)).1⟩,
   ⟨by decide,
    ((missing_host_key_prompt_decision "no" "h" "ssh-rsa" "AAAA"
        ⟨⟨false, false⟩, ⟨false, false⟩, [], false⟩).2 (by decide)).1,
    ((missing_host_key_prompt_decision "no" "h" "ssh-rsa" "AAAA"
        ⟨⟨false, false⟩, ⟨false, false⟩, [], false⟩).2 (by decide)).2.1⟩⟩

/-- Claim C9 (failing): starting with no locks held, a rejected confirmation
leaves both exclusive `lockf` locks held while the error propagates (the
release on lines 91-92 uses `fcntl.flock`, which does not undo a `lockf`
lock), and an exception out of `raw_input` propagates with both locks held
and `sys.stdin` still swapped — no release of any kind runs on that path. -/
theorem rejection_and_prompt_error_leak_locks :
    ((missingHostKey true (Except.ok "no") "h" "ssh-rsa" "AAAA"
        ⟨⟨false, false⟩, ⟨false, false⟩, [], false⟩).1 =
      Except.error (PyExc.ansibleError "host connection rejected by user") ∧
     (missingHostKey true (Except.ok "no") "h" "ssh-rsa" "AAAA"
        ⟨⟨false, false⟩, ⟨false, false⟩, [], false⟩).2.processLock.lockfHeld = true ∧
     (missingHostKey true (Except.ok "no") "h" "ssh-rsa" "AAAA"
        ⟨⟨false, false⟩, ⟨false, false⟩, [], false⟩).2.outputLock.lockfHeld = true) ∧
    ((missingHostKey true (Except.error ()) "h" "ssh-rsa" "AAAA"
        ⟨⟨false, false⟩, ⟨false, false⟩, [], false⟩).1 =
      Except.error PyExc.promptFailed ∧
     (missingHostKey true (Except.error ()) "h" "ssh-rsa" "AAAA"
        ⟨⟨false, false⟩, ⟨false, false⟩, [], false⟩).2.processLock.lockfHeld = true ∧
     (missingHostKey true (Except.error ()) "h" "ssh-rsa" "AAAA"
        ⟨⟨false, false⟩, ⟨false, false⟩, [], false⟩).2.outputLock.lockfHeld = true ∧
     (missingHostKey true (Except.error ()) "h" "ssh-rsa" "AAAA"
        ⟨⟨false, false⟩, ⟨false, false⟩, [], false⟩).2.stdinSwapped = true) := by
  refine ⟨⟨rfl, rfl, rfl⟩, ⟨rfl, rfl, rfl, rfl⟩⟩

/-- Claim C3 as stated fails: when the guard of the flush holds, the lock
file is opened (line 274) before the `try:` of line 277, so an unwritable
directory makes `close()` raise and the transport close is never reached. -/
theorem close_raises_on_lock_open_failure :
    (close ⟨true, true, false, false, true, false⟩
        [⟨"h", "ssh-rsa", "AAAA", true⟩]).raised = some PyExc.osError ∧
    (close ⟨true, true, false, false, true, false⟩
        [⟨"h", "ssh-rsa", "AAAA", true⟩]).transportClosed = false := by
  exact ⟨rfl, rfl⟩

/-- Claim C3, amended: provided the lock-file directory creation and the
lock-file open succeed, any exception during the guarded flush body is
swallowed, `close()` raises nothing, and the transport close is attempted. -/
theorem close_swallows_flush_exceptions (env : CloseEnv) (store : List KeyEntry)
    (h1 : env.makedirsFails = false) (h2 : env.lockOpenFails = false) :
    (close env store).raised = none ∧
    (close env store).transportClosed = true := by
  unfold close
  cases hg : env.hostKeyChecking && env.recordHostKeys && anyKeysAdded store
  · simp
  · simp [h1, h2]

/-- Witness for C3 (amended): a failing flush body with a working lock file
still closes the transport and raises nothing. -/
theorem close_swallows_flush_exceptions_witness :
    ((⟨true, true, false, false, false, true⟩ : CloseEnv).makedirsFails = false ∧
     (⟨true, true, false, false, false, true⟩ : CloseEnv).lockOpenFails = false) ∧
    (close ⟨true, true, false, false, false, true⟩
        [⟨"h", "ssh-rsa", "AAAA", true⟩]).raised = none ∧
    (close ⟨true, true, false, false, false, true⟩
        [⟨"h", "ssh-rsa", "AAAA", true⟩]).transportClosed = true :=
  ⟨⟨rfl, rfl⟩,
   (close_swallows_flush_exceptions ⟨true, true, false, false, false, true⟩
      [⟨"h", "ssh-rsa", "AAAA", true⟩] rfl rfl).1,
   (close_swallows_flush_exceptions ⟨true, true, false, false, false, true⟩
      [⟨"h", "ssh-rsa", "AAAA", true⟩] rfl rfl).2⟩

/-- Claim C5: the flush writes the new contents to a temporary file in the
trust file's directory and installs them by the single rename of step 4 —
interrupting after any prefix of the steps before the rename leaves the file
at the canonical path byte-identical to its pre-flush content, and the
completed flush leaves exactly the saved lines there. -/
theorem flush_atomic_rename (store : List KeyEntry) (procUid procGid : Nat)
    (fs : FsState) (k : Nat) (hk : k ≤ 4) :
    (flushUpTo store procUid procGid k fs).trustContent = fs.trustContent ∧
    (flushUpTo store procUid procGid 5 fs).trustContent = savedLines store := by
  constructor
  · interval_cases k <;> rfl
  · rfl

/-- Witness for C5: interruption after the chmod step (two steps done) at a
concrete store and file system. -/
theorem flush_atomic_rename_witness :
    (2 ≤ 4) ∧
    (flushUpTo [⟨"h", "ssh-rsa", "AAAA", true⟩] 0 0 2
        ⟨["old line"], ⟨420, 0, 0⟩, none, none⟩).trustContent = ["old line"] ∧
    (flushUpTo [⟨"h", "ssh-rsa", "AAAA", true⟩] 0 0 5
        ⟨["old line"], ⟨420, 0, 0⟩, none, none⟩).trustContent =
      savedLines [⟨"h", "ssh-rsa", "AAAA", true⟩] :=
  ⟨by decide,
   (flush_atomic_rename [⟨"h", "ssh-rsa", "AAAA", true⟩] 0 0
      ⟨["old line"], ⟨420, 0, 0⟩, none, none⟩ 2 (by decide)).1,
   (flush_atomic_rename [⟨"h", "ssh-rsa", "AAAA", true⟩] 0 0
      ⟨["old line"], ⟨420, 0, 0⟩, none, none⟩ 2 (by decide)).2⟩

/-- Claim C8: the snapshotted mode bits, owner and group of the pre-flush
trust file are applied to the temporary file before the rename makes it
visible under the trust file's name, and after the completed flush the file
at the canonical path carries metadata identical to the pre-flush file. -/
theorem flush_preserves_file_meta (store : List KeyEntry) (procUid procGid : Nat)
    (fs : FsState) :
    (flushUpTo store procUid procGid 4 fs).tempMeta = some fs.trustMeta ∧
    (flushUpTo store procUid procGid 5 fs).trustMeta = fs.trustMeta := by
  exact ⟨rfl, rfl⟩

end ParamikoSwitch
